import Mathlib

/-!
Verification of the execution-boundary layer of oasis-parity:
`Externalities` (src/ethcore/src/externalities.rs), the VM factory
(src/ethcore/src/factory.rs) and the evmc host bridge
(src/ethcore/vm/src/ssvm.rs), shallowly embedded in Lean.

Bytes are modelled as `Nat` (values < 256 where it matters), 32-byte
hashes (`H256`) and variable-length byte strings as `List Nat`,
addresses as `Nat`, and `U256`/`u64` quantities as `Nat` with explicit
`% 2 ^ 64` where the code truncates.
-/

namespace OasisParity

/-- A 32-byte hash, modelled as its list of byte values. -/
abbrev H256 := List Nat

/-- H256::zero(): the all-zero 32-byte hash. -/
def H256.zero : H256 := List.replicate 32 0

/-- An account address (H160), modelled abstractly as a natural number. -/
abbrev Address := Nat

/-- The `vm::Error` variants relevant to the embedded operations. -/
inductive VmError where
  | MutableCallInStaticContext
  | OutOfGas
  | ContractExpired
  | StoreCorruption
deriving DecidableEq, Repr

/-- keccak_256 writes through a 32-byte buffer; the hash itself lives in the
external `keccak_hash` crate, so the embedding takes it as a parameter.
`slice_to_key` from externalities.rs:614-622: pad short inputs with zeros
to 32 bytes, hash longer inputs. -/
def slice_to_key (keccak_256 : List Nat → List Nat) (sl : List Nat) : H256 :=
  if sl.length > 32 then
    keccak_256 sl
  else
    sl ++ List.replicate (32 - sl.length) 0

/-- A log entry pushed by `log` (log_entry::LogEntry). -/
structure LogEntry where
  address : Address
  topics : List H256
  data : List Nat
deriving DecidableEq, Repr

/-- The Effect Accumulator (state::Substate): logs, self-destructed
addresses (a HashSet, modelled as a `Finset`), created contracts and the
accumulated sstore-clear refund. -/
structure Substate where
  logs : List LogEntry
  suicides : Finset Address
  contracts_created : List Address
  sstore_clears_refund : Nat
deriving DecidableEq

/-- The Schedule fields consulted by the embedded operations. -/
structure Schedule where
  create_data_gas : Nat
  create_data_limit : Nat
  exceptional_failed_code_deposit : Bool
deriving DecidableEq, Repr

/-- OutputPolicy from externalities.rs:37-43, with the borrowed output
buffers (`BytesRef::Fixed`, `BytesRef::Flexible`, and the optional
secondary copy-out buffer) carried inline as values. -/
inductive OutputPolicy where
  | returnFixed (slice : List Nat) (copy : Option (List Nat))
  | returnFlexible (vec : List Nat) (copy : Option (List Nat))
  | initContract (copy : Option (List Nat))
deriving DecidableEq

/-- Modelled from the spec: the world-state store collaborator (§6),
keyed by account, exposing balance/nonce/code and the word- and
byte-valued storage read/write operations used by `Externalities`.
`State<B>` itself is not under src/. Byte-valued reads may fail with a
backing-store error (corruption), which `Externalities` surfaces as a
`vm::Error`. -/
structure WorldState where
  balance : Address → Nat
  nonce : Address → Nat
  code : Address → Option (List Nat)
  storageWord : Address → H256 → H256
  storageBytes : Address → H256 → Except VmError (List Nat)

/-- Modelled from the spec: `State::set_storage` writes one word. -/
def WorldState.setStorageWord (s : WorldState) (a : Address) (k v : H256) : WorldState :=
  { s with storageWord := fun a2 k2 => if a2 = a ∧ k2 = k then v else s.storageWord a2 k2 }

/-- Modelled from the spec: `State::set_storage_bytes` writes one
byte-valued entry. -/
def WorldState.setStorageBytes (s : WorldState) (a : Address) (k : H256) (v : List Nat) :
    WorldState :=
  { s with storageBytes := fun a2 k2 => if a2 = a ∧ k2 = k then .ok v else s.storageBytes a2 k2 }

/-- Modelled from the spec: `State::sub_balance` subtracts from one
account's balance. -/
def WorldState.subBalance (s : WorldState) (a : Address) (amt : Nat) : WorldState :=
  { s with balance := fun x => if x = a then s.balance x - amt else s.balance x }

/-- Modelled from the spec: `State::add_balance` credits one account. -/
def WorldState.addBalance (s : WorldState) (a : Address) (amt : Nat) : WorldState :=
  { s with balance := fun x => if x = a then s.balance x + amt else s.balance x }

/-- Modelled from the spec: `State::transfer_balance` debits the source
and credits the destination. -/
def WorldState.transferBalance (s : WorldState) (src dst : Address) (amt : Nat) : WorldState :=
  (s.subBalance src amt).addBalance dst amt

/-- Modelled from the spec: `State::init_code` persists the given bytes
as the account's code. -/
def WorldState.initCode (s : WorldState) (a : Address) (c : List Nat) : WorldState :=
  { s with code := fun x => if x = a then some c else s.code x }

/-- One `Externalities` frame: the mutably borrowed world state and
Effect Accumulator, the environment info fields the embedded operations
read, the frame's origin address, schedule, output policy and static
flag. Tracers are passive observers (spec §6) and are not modelled. -/
structure ExtState where
  state : WorldState
  substate : Substate
  envNumber : Nat
  envTimestamp : Nat
  lastHashes : List H256
  originAddress : Address
  schedule : Schedule
  output : OutputPolicy
  staticFlag : Bool

/-- `Ext::set_storage` (externalities.rs:144-153): rejected in a static
frame before any side effect, else written through to world state. -/
def set_storage (ext : ExtState) (key value : H256) : Except VmError Unit × ExtState :=
  if ext.staticFlag then
    (.error .MutableCallInStaticContext, ext)
  else
    (.ok (), { ext with state := ext.state.setStorageWord ext.originAddress key value })

/-- `Ext::storage_bytes_at` (externalities.rs:155-160). -/
def storage_bytes_at (ext : ExtState) (key : H256) : Except VmError (List Nat) :=
  ext.state.storageBytes ext.originAddress key

/-- `Ext::storage_bytes_len` (externalities.rs:162-167): reads the same
underlying bytes and maps them to their length. -/
def storage_bytes_len (ext : ExtState) (key : H256) : Except VmError Nat :=
  (ext.state.storageBytes ext.originAddress key).map (fun bytes => bytes.length)

/-- `Ext::set_storage_bytes` (externalities.rs:169-178). -/
def set_storage_bytes (ext : ExtState) (key : H256) (value : List Nat) :
    Except VmError Unit × ExtState :=
  if ext.staticFlag then
    (.error .MutableCallInStaticContext, ext)
  else
    (.ok (), { ext with state := ext.state.setStorageBytes ext.originAddress key value })

/-- `Ext::log` (externalities.rs:502-518): rejected in a static frame,
else appends a log entry for the current address to the substate. -/
def log (ext : ExtState) (topics : List H256) (data : List Nat) :
    Except VmError Unit × ExtState :=
  if ext.staticFlag then
    (.error .MutableCallInStaticContext, ext)
  else
    (.ok (),
     { ext with substate :=
        { ext.substate with logs :=
           ext.substate.logs ++ [{ address := ext.originAddress, topics := topics, data := data }] } })

/-- `Ext::suicide` (externalities.rs:520-546): rejected in a static
frame; destructing to self subtracts the full balance (crediting no
one), destructing to a distinct address transfers the full balance;
either way the current address is inserted into the suicide set. -/
def suicide (ext : ExtState) (refund_address : Address) : Except VmError Unit × ExtState :=
  if ext.staticFlag then
    (.error .MutableCallInStaticContext, ext)
  else
    let address := ext.originAddress
    let bal := ext.state.balance address
    let state2 :=
      if address = refund_address then
        ext.state.subBalance address bal
      else
        ext.state.transferBalance address refund_address bal
    (.ok (),
     { ext with
        state := state2,
        substate := { ext.substate with suicides := insert address ext.substate.suicides } })

/-- `Ext::blockhash` (externalities.rs:228-237): `number` is a U256 and
`env_info.number` a u64; `low_u64` is `% 2 ^ 64`. Out-of-bounds indexing
into `last_hashes` is modelled by `getD` with the zero hash. -/
def blockhash (ext : ExtState) (number : Nat) : H256 :=
  if number < ext.envNumber ∧ number % 2 ^ 64 ≥ max 256 ext.envNumber - 256 then
    ext.lastHashes.getD (ext.envNumber - number % 2 ^ 64 - 1) H256.zero
  else
    H256.zero

/-- `Ext::ret` (externalities.rs:462-500): dispatch on the output
policy; in the init-contract case charge the per-byte code-deposit cost
and persist the code, or fail per the schedule's deposit policy. -/
def ret (ext : ExtState) (gas : Nat) (data : List Nat) (apply_state : Bool) :
    Except VmError Nat × ExtState :=
  match ext.output with
  | .returnFixed slice copy =>
      let len := min slice.length data.length
      (.ok gas,
       { ext with output := .returnFixed (data.take len ++ slice.drop len)
                              (copy.map (fun _ => data)) })
  | .returnFlexible _ copy =>
      (.ok gas, { ext with output := .returnFlexible data (copy.map (fun _ => data)) })
  | .initContract copy =>
      if apply_state then
        let return_cost := data.length * ext.schedule.create_data_gas
        if return_cost > gas ∨ data.length > ext.schedule.create_data_limit then
          if ext.schedule.exceptional_failed_code_deposit then
            (.error .OutOfGas, ext)
          else
            (.ok gas, ext)
        else
          (.ok (gas - return_cost),
           { ext with
              output := .initContract (copy.map (fun _ => data)),
              state := ext.state.initCode ext.originAddress data })
      else
        (.ok gas, ext)

/-- `KVStoreMut::set` for `Externalities` (externalities.rs:652-655):
canonicalize the key and call `set_storage_bytes`, discarding the
result with `.ok()`. -/
def kvstore_set (keccak_256 : List Nat → List Nat) (ext : ExtState) (key value : List Nat) :
    ExtState :=
  (set_storage_bytes ext (slice_to_key keccak_256 key) value).2

/-- `KVStoreMut::remove` for `Externalities` (externalities.rs:657-659):
implemented as setting the canonicalized key to the empty byte string,
again discarding the result. -/
def kvstore_remove (keccak_256 : List Nat → List Nat) (ext : ExtState) (key : List Nat) :
    ExtState :=
  (set_storage_bytes ext (slice_to_key keccak_256 key) []).2

/-- Big-endian fixed-width byte encoding of a natural number. -/
def natToBytesBE (k n : Nat) : List Nat :=
  (List.range k).map (fun i => n / 256 ^ (k - 1 - i) % 256)

/-- Big-endian byte decoding. -/
def bytesToNatBE (l : List Nat) : Nat :=
  l.foldl (fun acc b => acc * 256 + b) 0

/-- Modelled from the spec: the magic marker of the Oasis contract
header wire format (§6); the constant `vm::OASIS_HEADER_PREFIX` is not
under src/. -/
def OASIS_HEADER_MAGIC : List Nat := [0, 115, 105, 115]

/-- Modelled from the spec: the parsed Oasis contract
(`vm::OasisContract`, not under src/): header version, effective
confidentiality flag, optional expiry, and the header-stripped code. -/
structure OasisContract where
  header_version : Nat
  confidential : Bool
  expiry : Option Nat
  code : List Nat
deriving DecidableEq, Repr

/-- Modelled from the spec: `vm::OasisContractHeader` (not under src/),
version 1 carrying an optional confidentiality flag and an optional
expiry height. -/
inductive OasisContractHeader where
  | V1 (confidential : Option Bool) (expiry : Option Nat)
deriving DecidableEq, Repr

/-- Encoding of the optional confidentiality flag as one byte. -/
def encodeConfidentialFlag : Option Bool → Nat
  | none => 0
  | some false => 1
  | some true => 2

/-- Modelled from the spec: `OasisContractHeader::to_vec`, serializing
the versioned self-describing prefix (§6): magic marker, version byte,
confidentiality byte, then the optional expiry as a presence byte
followed by 8 big-endian bytes. -/
def OasisContractHeader.to_vec : OasisContractHeader → List Nat
  | .V1 c e =>
      OASIS_HEADER_MAGIC ++ [1, encodeConfidentialFlag c] ++
        (match e with
         | none => [0]
         | some v => 1 :: natToBytesBE 8 (v % 2 ^ 64))

/-- Modelled from the spec: decoding the header body after the magic
marker; any body that does not decode to a recognized version is
rejected (§6). The effective `confidential` flag of the parsed contract
is true exactly when the header carries `Some(true)`. -/
def decodeHeaderBody : List Nat → Except Unit OasisContract
  | 1 :: cb :: rest =>
      if cb ≤ 2 then
        match rest with
        | 0 :: payload =>
            .ok { header_version := 1, confidential := cb == 2, expiry := none, code := payload }
        | 1 :: rest2 =>
            if 8 ≤ rest2.length then
              .ok { header_version := 1, confidential := cb == 2,
                    expiry := some (bytesToNatBE (rest2.take 8)), code := rest2.drop 8 }
            else
              .error ()
        | _ => .error ()
      else
        .error ()
  | _ => .error ()

/-- Modelled from the spec: `OasisContract::from_code` (not under src/):
code without the magic marker has no header (`Ok(None)`); code with the
marker must decode (`Ok(Some(..))`) or the parse fails (`Err`). -/
def OasisContract.from_code (code : List Nat) : Except Unit (Option OasisContract) :=
  if code.take 4 = OASIS_HEADER_MAGIC then
    (decodeHeaderBody (code.drop 4)).map some
  else
    .ok none

/-- The code-rewriting block of `Ext::create`
(externalities.rs:246-279): when the creator sits in an activated
confidential context, force confidentiality on in the deployed code's
header; `none` models the early `return ContractCreateResult::Failed`
on a header parse error. -/
def create_transformed_code (c10l_activated : Bool) (code : List Nat) : Option (List Nat) :=
  if c10l_activated then
    match OasisContract.from_code code with
    | .ok (some oc) =>
        if oc.confidential then
          some code
        else
          some ((OasisContractHeader.V1 (some true) oc.expiry).to_vec ++ oc.code)
    | .ok none => some ((OasisContractHeader.V1 (some true) none).to_vec ++ code)
    | .error _ => none
  else
    some code

/-- The interpreter selected by the VM factory. -/
inductive VmKind where
  | wasm
  | evm (gas : Nat)
deriving DecidableEq, Repr

/-- The confidentiality-aware `OasisVm` adapter the factory always
wraps the selected interpreter in; the optional confidential context is
modelled by its presence. -/
structure OasisVmBox where
  ctx : Option Unit
  vm : VmKind
deriving DecidableEq, Repr

/-- WASM_MAGIC_NUMBER from factory.rs:29: the bytes of b"\x00asm". -/
def WASM_MAGIC_NUMBER : List Nat := [0, 97, 115, 109]

/-- The code sniff of `VmFactory::create` (factory.rs:200-203):
`params.code` is present, longer than 4 bytes, and starts with the WASM
magic number. -/
def code_is_wasm (code : Option (List Nat)) : Bool :=
  match code with
  | some c => decide (4 < c.length) && decide (c.take 4 = WASM_MAGIC_NUMBER)
  | none => false

/-- `VmFactory::create` (factory.rs:190-212): select the WASM
interpreter when the schedule enables WASM and the code sniff passes,
else the EVM interpreter sized to the requested gas; always wrap the
result in the `OasisVm` adapter holding the optional confidential
context. `schedule_wasm` is `schedule.wasm.is_some()`. -/
def vm_factory_create (ctx : Option Unit) (schedule_wasm : Bool) (code : Option (List Nat))
    (gas : Nat) : OasisVmBox :=
  { ctx := ctx,
    vm := if schedule_wasm && code_is_wasm code then VmKind.wasm else VmKind.evm gas }

/-- `vm::ContractCreateResult`. -/
inductive ContractCreateResult where
  | Created (address : Address) (gas_left : Nat)
  | Reverted (gas_left : Nat) (return_data : List Nat)
  | Failed
deriving DecidableEq, Repr

/-- `vm::MessageCallResult`. -/
inductive MessageCallResult where
  | Success (gas_left : Nat) (return_data : List Nat)
  | Reverted (gas_left : Nat) (return_data : List Nat)
  | Failed
deriving DecidableEq, Repr

/-- The evmc status codes produced by the host bridge. -/
inductive StatusCode where
  | EVMC_SUCCESS
  | EVMC_FAILURE
  | EVMC_REVERT
deriving DecidableEq, Repr

/-- A 20-byte evmc address. -/
abbrev EvmcAddress := List Nat

/-- The all-zero 20-byte evmc address. -/
def zeroEvmcAddress : EvmcAddress := List.replicate 20 0

/-- `H160::into()` as the 20 big-endian bytes of the address. -/
def addressToEvmc (a : Address) : EvmcAddress := natToBytesBE 20 a

/-- The create half of `HostContext::call` (ssvm.rs:175-212): mapping
an `Ext::create` outcome to (output bytes, gas-left, address, status).
The output for `Created` is the (empty) `contract_code` buffer; the
`as_u64 as i64` conversion of gas-left is modelled as `% 2 ^ 64`. -/
def host_call_create_outcome (gas : Nat) (r : ContractCreateResult) :
    List Nat × Nat × EvmcAddress × StatusCode :=
  match r with
  | .Created address gas_left =>
      ([], gas_left % 2 ^ 64, addressToEvmc address, .EVMC_SUCCESS)
  | .Failed =>
      ([], gas, zeroEvmcAddress, .EVMC_FAILURE)
  | .Reverted gas_left return_data =>
      (return_data, gas_left % 2 ^ 64, zeroEvmcAddress, .EVMC_REVERT)

/-- The call half of `HostContext::call` (ssvm.rs:213-251): mapping an
`Ext::call` outcome to (output bytes, gas-left, address, status). -/
def host_call_message_outcome (gas : Nat) (r : MessageCallResult) :
    List Nat × Nat × EvmcAddress × StatusCode :=
  match r with
  | .Success gas_left return_data =>
      (return_data, gas_left % 2 ^ 64, zeroEvmcAddress, .EVMC_SUCCESS)
  | .Failed =>
      ([], gas, zeroEvmcAddress, .EVMC_FAILURE)
  | .Reverted gas_left return_data =>
      (return_data, gas_left % 2 ^ 64, zeroEvmcAddress, .EVMC_REVERT)

/-- A concrete world state for witnesses. -/
def exampleWorld : WorldState :=
  { balance := fun a => if a = 1 then 100 else 7,
    nonce := fun _ => 0,
    code := fun _ => none,
    storageWord := fun _ _ => H256.zero,
    storageBytes := fun _ _ => .ok [] }

/-- An empty Effect Accumulator for witnesses. -/
def exampleSubstate : Substate :=
  { logs := [], suicides := ∅, contracts_created := [], sstore_clears_refund := 0 }

/-- A concrete schedule for witnesses. -/
def exampleSchedule : Schedule :=
  { create_data_gas := 2, create_data_limit := 10, exceptional_failed_code_deposit := true }

/-- A concrete static frame for witnesses. -/
def exampleStaticExt : ExtState :=
  { state := exampleWorld, substate := exampleSubstate, envNumber := 100, envTimestamp := 0,
    lastHashes := [], originAddress := 1, schedule := exampleSchedule,
    output := .initContract none, staticFlag := true }

/-- A concrete non-static frame for witnesses. -/
def exampleExt : ExtState :=
  { exampleStaticExt with staticFlag := false }

/-- A concrete frame at block 0x120001 with one recorded ancestor hash,
mirroring the `can_return_block_hash` test. -/
def exampleBlockExt : ExtState :=
  { exampleExt with envNumber := 1179649, lastHashes := [List.replicate 32 175] }

/-- A concrete deploy code carrying a valid non-confidential V1 header
with expiry 3 over the payload [9, 9]. -/
def createWitnessCode : List Nat :=
  (OasisContractHeader.V1 (some false) (some 3)).to_vec ++ [9, 9]

/-- C8: for every byte string, `slice_to_key` (a pure Lean function, hence
deterministic) returns a 32-byte key; inputs of length at most 32 are
right-padded with zeros, preserving the input as prefix; longer inputs are
replaced by the keccak-256 hash of the whole input. -/
theorem slice_to_key_spec (keccak_256 : List Nat → List Nat) (sl : List Nat)
    (hk : ∀ x, (keccak_256 x).length = 32) :
    (slice_to_key keccak_256 sl).length = 32 ∧
    (sl.length ≤ 32 →
      (slice_to_key keccak_256 sl).take sl.length = sl ∧
      (slice_to_key keccak_256 sl).drop sl.length = List.replicate (32 - sl.length) 0) ∧
    (32 < sl.length → slice_to_key keccak_256 sl = keccak_256 sl) := by
  unfold slice_to_key
  by_cases h : sl.length > 32
  · simp [h, hk]
  · rw [if_neg h]
    refine ⟨?_, fun _ => ⟨?_, ?_⟩, fun h32 => absurd h32 h⟩
    · simp [List.length_append, List.length_replicate]
      omega
    · simp [List.take_left]
    · simp [List.drop_left]

/-- Witness for C8 at a concrete hash function and input. -/
theorem slice_to_key_spec_witness :
    (∀ x : List Nat, ((fun _ : List Nat => List.replicate 32 1) x).length = 32) ∧
    ((slice_to_key (fun _ => List.replicate 32 1) [5, 6]).length = 32 ∧
    ([5, 6].length ≤ 32 →
      (slice_to_key (fun _ => List.replicate 32 1) [5, 6]).take [5, 6].length = [5, 6] ∧
      (slice_to_key (fun _ => List.replicate 32 1) [5, 6]).drop [5, 6].length =
        List.replicate (32 - [5, 6].length) 0) ∧
    (32 < [5, 6].length → slice_to_key (fun _ => List.replicate 32 1) [5, 6] =
      (fun _ : List Nat => List.replicate 32 1) [5, 6])) :=
  ⟨fun _ => by simp,
   slice_to_key_spec (fun _ => List.replicate 32 1) [5, 6] (fun _ => by simp)⟩

/-- C1: in a frame with the static flag set, each of `set_storage`,
`set_storage_bytes`, `log` and `suicide` returns
`MutableCallInStaticContext` and returns the frame unchanged: the
substate (logs, suicide set, refund total) and the backing state are
untouched by the failed call. -/
theorem static_mutators_fail (ext : ExtState) (h : ext.staticFlag = true)
    (key value : H256) (valueBytes : List Nat) (topics : List H256) (data : List Nat)
    (refund : Address) :
    set_storage ext key value = (.error .MutableCallInStaticContext, ext) ∧
    set_storage_bytes ext key valueBytes = (.error .MutableCallInStaticContext, ext) ∧
    log ext topics data = (.error .MutableCallInStaticContext, ext) ∧
    suicide ext refund = (.error .MutableCallInStaticContext, ext) := by
  unfold set_storage set_storage_bytes log suicide
  simp [h]

/-- Witness for C1 on a concrete static frame. -/
theorem static_mutators_fail_witness :
    exampleStaticExt.staticFlag = true ∧
    (set_storage exampleStaticExt [1] [2] =
        (.error .MutableCallInStaticContext, exampleStaticExt) ∧
      set_storage_bytes exampleStaticExt [1] [3] =
        (.error .MutableCallInStaticContext, exampleStaticExt) ∧
      log exampleStaticExt [] [4] = (.error .MutableCallInStaticContext, exampleStaticExt) ∧
      suicide exampleStaticExt 2 = (.error .MutableCallInStaticContext, exampleStaticExt)) :=
  ⟨rfl, static_mutators_fail exampleStaticExt rfl [1] [2] [3] [] [4] 2⟩

/-- C9: in a static frame, the generic key-value mutators `set` and
`remove` of the `KVStoreMut` impl return unit and leave the frame
(hence storage) unchanged: the `MutableCallInStaticContext` error
raised by the underlying `set_storage_bytes` is discarded by `.ok()`
and is not observable through this interface. -/
theorem kvstore_mut_static_noop (keccak_256 : List Nat → List Nat) (ext : ExtState)
    (h : ext.staticFlag = true) (key value : List Nat) :
    kvstore_set keccak_256 ext key value = ext ∧ kvstore_remove keccak_256 ext key = ext := by
  unfold kvstore_set kvstore_remove set_storage_bytes
  simp [h]

/-- Witness for C9 on a concrete static frame. -/
theorem kvstore_mut_static_noop_witness :
    exampleStaticExt.staticFlag = true ∧
    (kvstore_set (fun _ => List.replicate 32 1) exampleStaticExt [7] [8] = exampleStaticExt ∧
      kvstore_remove (fun _ => List.replicate 32 1) exampleStaticExt [7] = exampleStaticExt) :=
  ⟨rfl, kvstore_mut_static_noop (fun _ => List.replicate 32 1) exampleStaticExt rfl [7] [8]⟩

/-- C10: `storage_bytes_len` returns `Ok n` exactly when
`storage_bytes_at` returns `Ok v` with `v.length = n`, and returns an
error exactly when `storage_bytes_at` returns that error: both map the
same underlying storage read. -/
theorem storage_bytes_len_spec (ext : ExtState) (key : H256) :
    (∀ n, storage_bytes_len ext key = .ok n ↔
      ∃ v, storage_bytes_at ext key = .ok v ∧ v.length = n) ∧
    (∀ e, storage_bytes_len ext key = .error e ↔ storage_bytes_at ext key = .error e) := by
  unfold storage_bytes_len storage_bytes_at
  cases hx : ext.state.storageBytes ext.originAddress key with
  | ok v => simp [Except.map]
  | error e => simp [Except.map]

/-- C5: for every block number n, `blockhash` returns the recorded
historical hash (`last_hashes[current - n - 1]`) when n is strictly
below the current block number and at most 256 blocks behind it, and
the zero hash for every other n. The current block number is a u64. -/
theorem blockhash_spec (ext : ExtState) (n : Nat) (henv : ext.envNumber < 2 ^ 64) :
    blockhash ext n =
      (if n < ext.envNumber ∧ ext.envNumber - n ≤ 256 then
        ext.lastHashes.getD (ext.envNumber - n - 1) H256.zero
      else
        H256.zero) := by
  unfold blockhash
  by_cases h1 : n < ext.envNumber
  · have hn : n % 2 ^ 64 = n := Nat.mod_eq_of_lt (lt_trans h1 henv)
    rw [hn]
    by_cases h2 : ext.envNumber - n ≤ 256
    · have hc : n ≥ max 256 ext.envNumber - 256 := by omega
      rw [if_pos ⟨h1, hc⟩, if_pos ⟨h1, h2⟩]
    · have hc : ¬(n < ext.envNumber ∧ n ≥ max 256 ext.envNumber - 256) := by
        rintro ⟨-, hge⟩
        omega
      rw [if_neg hc, if_neg (fun hh => h2 hh.2)]
  · rw [if_neg (fun hh => h1 hh.1), if_neg (fun hh => h1 hh.1)]

/-- Witness for C5: at block 0x120001 with one recorded ancestor hash,
looking up block 0x120000 falls in the window. -/
theorem blockhash_spec_witness :
    exampleBlockExt.envNumber < 2 ^ 64 ∧
    blockhash exampleBlockExt 1179648 =
      (if 1179648 < exampleBlockExt.envNumber ∧ exampleBlockExt.envNumber - 1179648 ≤ 256 then
        exampleBlockExt.lastHashes.getD (exampleBlockExt.envNumber - 1179648 - 1) H256.zero
      else
        H256.zero) :=
  ⟨by norm_num [exampleBlockExt, exampleExt, exampleStaticExt],
   blockhash_spec exampleBlockExt 1179648
     (by norm_num [exampleBlockExt, exampleExt, exampleStaticExt])⟩

/-- Reduction of `suicide` in a non-static frame to its explicit
result, shared by the self-destruct proofs. -/
theorem suicide_not_static (ext : ExtState) (h : ext.staticFlag = false) (refund : Address) :
    suicide ext refund =
      (.ok (),
       { ext with
          state :=
            if ext.originAddress = refund then
              ext.state.subBalance ext.originAddress (ext.state.balance ext.originAddress)
            else
              ext.state.transferBalance ext.originAddress refund
                (ext.state.balance ext.originAddress),
          substate := { ext.substate with
            suicides := insert ext.originAddress ext.substate.suicides } }) := by
  unfold suicide
  rw [h]
  rfl

/-- C7: in a non-static frame, `suicide` to the current address
subtracts the full balance and credits no other account; `suicide` to a
distinct address transfers the entire prior balance to the refund
address and zeroes the source; in both cases the current address is
inserted into the substate's suicide set (a `Finset`, so a second call
leaves the set unchanged and the address recorded exactly once). -/
theorem suicide_spec (ext : ExtState) (h : ext.staticFlag = false) (refund : Address) :
    (suicide ext refund).1 = .ok () ∧
    (suicide ext refund).2.substate.suicides = insert ext.originAddress ext.substate.suicides ∧
    (refund = ext.originAddress →
      (suicide ext refund).2.state.balance ext.originAddress = 0 ∧
      ∀ a, a ≠ ext.originAddress →
        (suicide ext refund).2.state.balance a = ext.state.balance a) ∧
    (refund ≠ ext.originAddress →
      (suicide ext refund).2.state.balance refund =
        ext.state.balance refund + ext.state.balance ext.originAddress ∧
      (suicide ext refund).2.state.balance ext.originAddress = 0 ∧
      ∀ a, a ≠ ext.originAddress → a ≠ refund →
        (suicide ext refund).2.state.balance a = ext.state.balance a) ∧
    ext.originAddress ∈ (suicide ext refund).2.substate.suicides ∧
    (suicide (suicide ext refund).2 refund).2.substate.suicides =
      (suicide ext refund).2.substate.suicides := by
  have hlast : (suicide (suicide ext refund).2 refund).2.substate.suicides =
      (suicide ext refund).2.substate.suicides := by
    have hB : (suicide ext refund).2.staticFlag = false := by
      rw [suicide_not_static ext h refund]
      exact h
    rw [suicide_not_static _ hB refund, suicide_not_static ext h refund]
    simp [Finset.insert_idem]
  refine ⟨?_, ?_, ?_, ?_, ?_, hlast⟩
  · rw [suicide_not_static ext h refund]
  · rw [suicide_not_static ext h refund]
  · intro he
    rw [suicide_not_static ext h refund]
    constructor
    · simp [he.symm, WorldState.subBalance]
    · intro a ha
      simp [he.symm, WorldState.subBalance, ha]
      intro haf
      exact absurd (haf.trans he) ha
  · intro he
    rw [suicide_not_static ext h refund]
    have he2 : ext.originAddress ≠ refund := fun hh => he hh.symm
    refine ⟨?_, ?_, ?_⟩
    · simp [if_neg he2, WorldState.transferBalance, WorldState.subBalance,
        WorldState.addBalance, he, Nat.add_comm]
    · simp [if_neg he2, WorldState.transferBalance, WorldState.subBalance,
        WorldState.addBalance, he2]
    · intro a ha har
      simp [if_neg he2, WorldState.transferBalance, WorldState.subBalance,
        WorldState.addBalance, ha, har]
  · rw [suicide_not_static ext h refund]
    exact Finset.mem_insert_self _ _

/-- Witness for C7 on a concrete non-static frame, destructing to a
distinct refund address. -/
theorem suicide_spec_witness :
    exampleExt.staticFlag = false ∧
    ((suicide exampleExt 2).1 = .ok () ∧
      (suicide exampleExt 2).2.substate.suicides =
        insert exampleExt.originAddress exampleExt.substate.suicides ∧
      (2 = exampleExt.originAddress →
        (suicide exampleExt 2).2.state.balance exampleExt.originAddress = 0 ∧
        ∀ a, a ≠ exampleExt.originAddress →
          (suicide exampleExt 2).2.state.balance a = exampleExt.state.balance a) ∧
      (2 ≠ exampleExt.originAddress →
        (suicide exampleExt 2).2.state.balance 2 =
          exampleExt.state.balance 2 + exampleExt.state.balance exampleExt.originAddress ∧
        (suicide exampleExt 2).2.state.balance exampleExt.originAddress = 0 ∧
        ∀ a, a ≠ exampleExt.originAddress → a ≠ 2 →
          (suicide exampleExt 2).2.state.balance a = exampleExt.state.balance a) ∧
      exampleExt.originAddress ∈ (suicide exampleExt 2).2.substate.suicides ∧
      (suicide (suicide exampleExt 2).2 2).2.substate.suicides =
        (suicide exampleExt 2).2.substate.suicides) :=
  ⟨rfl, suicide_spec exampleExt rfl 2⟩

/-- C3: for `ret` with `InitContract` output policy and
`apply_state = true`: within the code-size limit and with enough gas
the data is persisted as the account's code and `gas - n * c` is
returned; on insufficient gas or over-limit data, `ret` fails with
`OutOfGas` under `exceptional_failed_code_deposit = true` and returns
`Ok gas` with the frame (hence the stored code) unchanged under
`exceptional_failed_code_deposit = false`. -/
theorem ret_init_contract_spec (ext : ExtState) (gas : Nat) (data : List Nat)
    (copy : Option (List Nat)) (hout : ext.output = .initContract copy) :
    (data.length ≤ ext.schedule.create_data_limit ∧
      data.length * ext.schedule.create_data_gas ≤ gas →
        (ret ext gas data true).1 = .ok (gas - data.length * ext.schedule.create_data_gas) ∧
        (ret ext gas data true).2.state.code ext.originAddress = some data) ∧
    (data.length * ext.schedule.create_data_gas > gas ∨
      data.length > ext.schedule.create_data_limit →
        (ext.schedule.exceptional_failed_code_deposit = true →
          ret ext gas data true = (.error .OutOfGas, ext)) ∧
        (ext.schedule.exceptional_failed_code_deposit = false →
          ret ext gas data true = (.ok gas, ext))) := by
  unfold ret
  rw [hout]
  constructor
  · rintro ⟨hL, hg⟩
    have hcond : ¬(data.length * ext.schedule.create_data_gas > gas ∨
        data.length > ext.schedule.create_data_limit) := by
      push_neg
      exact ⟨hg, hL⟩
    simp [if_neg hcond, WorldState.initCode]
  · intro hfail
    constructor
    · intro hexc
      simp [if_pos hfail, hexc]
    · intro hexc
      simp [if_pos hfail, hexc]

/-- Witness for C3 on a concrete frame, in the success case. -/
theorem ret_init_contract_spec_witness :
    exampleExt.output = .initContract none ∧
    (([1, 2, 3].length ≤ exampleExt.schedule.create_data_limit ∧
      [1, 2, 3].length * exampleExt.schedule.create_data_gas ≤ 100 →
        (ret exampleExt 100 [1, 2, 3] true).1 =
          .ok (100 - [1, 2, 3].length * exampleExt.schedule.create_data_gas) ∧
        (ret exampleExt 100 [1, 2, 3] true).2.state.code exampleExt.originAddress =
          some [1, 2, 3]) ∧
    ([1, 2, 3].length * exampleExt.schedule.create_data_gas > 100 ∨
      [1, 2, 3].length > exampleExt.schedule.create_data_limit →
        (exampleExt.schedule.exceptional_failed_code_deposit = true →
          ret exampleExt 100 [1, 2, 3] true = (.error .OutOfGas, exampleExt)) ∧
        (exampleExt.schedule.exceptional_failed_code_deposit = false →
          ret exampleExt 100 [1, 2, 3] true = (.ok 100, exampleExt)))) :=
  ⟨rfl, ret_init_contract_spec exampleExt 100 [1, 2, 3] none rfl⟩

/-- C2: in `create` under an activated confidential context, headerless
code gets a fresh V1 header with `confidential = Some(true)` and no
expiry; a valid non-confidential header is replaced by a V1 header with
`confidential = Some(true)` and the original expiry, over the
header-stripped code; an already-confidential header leaves the code
unchanged; a header parse failure makes `create` return `Failed`
(modelled by `none`) before any code is stored. -/
theorem create_confidential_header_spec (code : List Nat) :
    (OasisContract.from_code code = .ok none →
      create_transformed_code true code =
        some ((OasisContractHeader.V1 (some true) none).to_vec ++ code)) ∧
    (∀ oc, OasisContract.from_code code = .ok (some oc) → oc.confidential = false →
      create_transformed_code true code =
        some ((OasisContractHeader.V1 (some true) oc.expiry).to_vec ++ oc.code)) ∧
    (∀ oc, OasisContract.from_code code = .ok (some oc) → oc.confidential = true →
      create_transformed_code true code = some code) ∧
    (∀ e, OasisContract.from_code code = .error e →
      create_transformed_code true code = none) := by
  refine ⟨fun h => ?_, fun oc h hc => ?_, fun oc h hc => ?_, fun e h => ?_⟩
  · simp [create_transformed_code, h]
  · simp [create_transformed_code, h, hc]
  · simp [create_transformed_code, h, hc]
  · simp [create_transformed_code, h]

/-- Witness for C2 on concrete code with a valid non-confidential V1
header carrying expiry 3: the header is rewritten to confidential with
the expiry preserved over the stripped payload. -/
theorem create_confidential_header_spec_witness :
    OasisContract.from_code createWitnessCode =
      .ok (some { header_version := 1, confidential := false, expiry := some 3,
                  code := [9, 9] }) ∧
    create_transformed_code true createWitnessCode =
      some ((OasisContractHeader.V1 (some true) (some 3)).to_vec ++ [9, 9]) :=
  ⟨by rfl,
   (create_confidential_header_spec createWitnessCode).2.1
     { header_version := 1, confidential := false, expiry := some 3, code := [9, 9] }
     (by rfl) rfl⟩

/-- C6 counterexample: with WASM enabled in the schedule and code that
is exactly the 4-byte WASM magic number, the code begins with the magic
sequence, yet the factory selects the EVM interpreter, because
`VmFactory::create` requires `code.len() > 4`. -/
theorem vm_factory_magic_only_counterexample :
    (some WASM_MAGIC_NUMBER : Option (List Nat)).isSome = true ∧
    WASM_MAGIC_NUMBER.take 4 = WASM_MAGIC_NUMBER ∧
    (vm_factory_create none true (some WASM_MAGIC_NUMBER) 7).vm = VmKind.evm 7 := by
  refine ⟨rfl, by decide, by rfl⟩

/-- C6 (amended): the factory selects the WASM interpreter exactly when
the schedule enables WASM and the supplied code is longer than 4 bytes
and begins with the WASM magic number; in every other case (including
absent code) it selects the EVM interpreter sized to the requested gas;
the selection is always wrapped in the `OasisVm` adapter holding the
given optional confidential context. -/
theorem vm_factory_create_spec (ctx : Option Unit) (schedule_wasm : Bool)
    (code : Option (List Nat)) (gas : Nat) :
    (vm_factory_create ctx schedule_wasm code gas).ctx = ctx ∧
    ((vm_factory_create ctx schedule_wasm code gas).vm = VmKind.wasm ↔
      schedule_wasm = true ∧
        ∃ c, code = some c ∧ 4 < c.length ∧ c.take 4 = WASM_MAGIC_NUMBER) ∧
    (¬(schedule_wasm = true ∧
        ∃ c, code = some c ∧ 4 < c.length ∧ c.take 4 = WASM_MAGIC_NUMBER) →
      (vm_factory_create ctx schedule_wasm code gas).vm = VmKind.evm gas) := by
  unfold vm_factory_create code_is_wasm
  cases code with
  | none => cases schedule_wasm <;> simp
  | some c =>
      cases schedule_wasm <;>
        by_cases h1 : 4 < c.length <;>
          by_cases h2 : c.take 4 = WASM_MAGIC_NUMBER <;>
            simp [h1, h2]

/-- Witness for C6 (amended): a 5-byte magic-headed code with WASM
enabled selects the WASM interpreter. -/
theorem vm_factory_create_spec_witness :
    (vm_factory_create (some ()) true (some [0, 97, 115, 109, 1]) 3).vm = VmKind.wasm :=
  ((vm_factory_create_spec (some ()) true (some [0, 97, 115, 109, 1]) 3).2.1).mpr
    ⟨rfl, [0, 97, 115, 109, 1], rfl, by decide, by decide⟩

/-- C4 counterexample: a Failed message-call outcome is bridged with
the caller-supplied gas (here 5) as gas-left, not zero. -/
theorem host_call_failed_gas_counterexample :
    host_call_message_outcome 5 MessageCallResult.Failed =
      ([], 5, zeroEvmcAddress, StatusCode.EVMC_FAILURE) ∧ (5 : Nat) ≠ 0 :=
  ⟨rfl, by decide⟩

/-- C4 (amended): the host bridge's call callback maps
`Success`/`Created` to `EVMC_SUCCESS` with gas-left and the return data
(resp. the created address, with the empty contract-code buffer as
data) populated, `Reverted` to `EVMC_REVERT` with gas-left and return
data, and `Failed` to `EVMC_FAILURE` with the caller-supplied gas as
gas-left and empty data and zero address. -/
theorem host_call_outcome_spec (gas : Nat) (r : ContractCreateResult)
    (m : MessageCallResult) :
    (∀ a g, r = .Created a g →
      host_call_create_outcome gas r = ([], g % 2 ^ 64, addressToEvmc a, .EVMC_SUCCESS)) ∧
    (∀ g d, r = .Reverted g d →
      host_call_create_outcome gas r = (d, g % 2 ^ 64, zeroEvmcAddress, .EVMC_REVERT)) ∧
    (r = .Failed →
      host_call_create_outcome gas r = ([], gas, zeroEvmcAddress, .EVMC_FAILURE)) ∧
    (∀ g d, m = .Success g d →
      host_call_message_outcome gas m = (d, g % 2 ^ 64, zeroEvmcAddress, .EVMC_SUCCESS)) ∧
    (∀ g d, m = .Reverted g d →
      host_call_message_outcome gas m = (d, g % 2 ^ 64, zeroEvmcAddress, .EVMC_REVERT)) ∧
    (m = .Failed →
      host_call_message_outcome gas m = ([], gas, zeroEvmcAddress, .EVMC_FAILURE)) := by
  refine ⟨fun a g hh => ?_, fun g d hh => ?_, fun hh => ?_, fun g d hh => ?_,
    fun g d hh => ?_, fun hh => ?_⟩ <;> subst hh <;> rfl

/-- Witness for C4 (amended) at concrete outcomes. -/
theorem host_call_outcome_spec_witness :
    host_call_create_outcome 5 (ContractCreateResult.Created 1 9) =
      ([], 9 % 2 ^ 64, addressToEvmc 1, StatusCode.EVMC_SUCCESS) ∧
    host_call_message_outcome 5 (MessageCallResult.Success 9 [2]) =
      ([2], 9 % 2 ^ 64, zeroEvmcAddress, StatusCode.EVMC_SUCCESS) :=
  ⟨(host_call_outcome_spec 5 (ContractCreateResult.Created 1 9)
      (MessageCallResult.Success 9 [2])).1 1 9 rfl,
   (host_call_outcome_spec 5 (ContractCreateResult.Created 1 9)
      (MessageCallResult.Success 9 [2])).2.2.2.1 9 [2] rfl⟩

end OasisParity
